import Mathlib

/-!
Verification of the unit-converter application (`src/app.py`).

The conversion engine `convert_units` and the AI-response parsing pipeline
`parse_with_gemini` are shallowly embedded here.  Python floats are modelled
as exact rationals (`ℚ`); decimal literals such as `0.3048` elaborate to the
exact rational the source writes.  A Python `KeyError` raised by a dict
lookup is modelled as `Except.error k` where `k` is the missing key.
-/

namespace UnitConverter

/-- The `"Length"` factor table of the `conversions` dict in `convert_units`
(src/app.py lines 30-37): metres per unit. -/
def length_table : List (String × ℚ) :=
  [("meters", 1.0), ("feet", 0.3048), ("inches", 0.0254),
   ("centimeters", 0.01), ("kilometers", 1000.0), ("miles", 1609.34)]

/-- The `"Weight"` factor table (src/app.py lines 38-43): kilograms per unit. -/
def weight_table : List (String × ℚ) :=
  [("kilograms", 1.0), ("pounds", 0.453592), ("grams", 0.001), ("ounces", 0.0283495)]

/-- The `"Volume"` factor table (src/app.py lines 49-54): litres per unit. -/
def volume_table : List (String × ℚ) :=
  [("liters", 1.0), ("gallons", 3.78541), ("milliliters", 0.001), ("cubic feet", 28.3168)]

/-- Lookup of `conversions[category]` for the three multiplicative-factor
categories.  The source dict also has a `"Temperature"` entry holding
lambdas, but `convert_units` returns from its temperature branch before the
dict is consulted, so that entry is unreachable on the factor path; an
unknown category raises `KeyError(category)`, modelled as `none` here. -/
def factor_table (category : String) : Option (List (String × ℚ)) :=
  if category = "Length" then some length_table
  else if category = "Weight" then some weight_table
  else if category = "Volume" then some volume_table
  else none

/-- Shallow embedding of `convert_units(value, from_unit, to_unit, category)`
(src/app.py lines 28-73).  The temperature branch mirrors lines 57-69
exactly: any `from_unit` other than `"Fahrenheit"`/`"Kelvin"` is treated as
Celsius, and any `to_unit` other than those two is returned as Celsius —
there is no unit validation on this branch.  The factor branch mirrors
lines 71-73: `value * conversions[category][from_unit] /
conversions[category][to_unit]`, with each failed dict lookup surfacing the
missing key. -/
def convert_units (value : ℚ) (from_unit to_unit category : String) :
    Except String ℚ :=
  if category = "Temperature" then
    let celsius :=
      if from_unit = "Fahrenheit" then (value - 32) * 5 / 9
      else if from_unit = "Kelvin" then value - 273.15
      else value
    if to_unit = "Fahrenheit" then .ok (celsius * 9 / 5 + 32)
    else if to_unit = "Kelvin" then .ok (celsius + 273.15)
    else .ok celsius
  else
    match factor_table category with
    | none => .error category
    | some table =>
      match List.lookup from_unit table with
      | none => .error from_unit
      | some a =>
        match List.lookup to_unit table with
        | none => .error to_unit
        | some b => .ok (value * a / b)

/-- The `unit_options` dict of the UI (src/app.py lines 204-209): the set of
valid unit labels per category. -/
def unit_options (category : String) : List String :=
  if category = "Length" then
    ["meters", "feet", "inches", "centimeters", "kilometers", "miles"]
  else if category = "Weight" then
    ["kilograms", "pounds", "grams", "ounces"]
  else if category = "Temperature" then
    ["Celsius", "Fahrenheit", "Kelvin"]
  else if category = "Volume" then
    ["liters", "gallons", "milliliters", "cubic feet"]
  else []

/-- The four supported categories (src/app.py line 213). -/
def categories : List String := ["Length", "Weight", "Temperature", "Volume"]

/-- Follows the spec's words: convert a temperature reading on scale
`from_unit` to Celsius by the inverse of the scale's defining formula
(Fahrenheit: `(x-32)*5/9`; Kelvin: `x-273.15`; Celsius: identity). -/
def spec_toCelsius : String → ℚ → ℚ
  | "Fahrenheit", x => (x - 32) * 5 / 9
  | "Kelvin", x => x - 273.15
  | _, x => x

/-- Follows the spec's words: convert a Celsius reading to scale `to_unit`
by the scale's forward formula (Fahrenheit: `x*9/5+32`; Kelvin: `x+273.15`;
Celsius: identity). -/
def spec_fromCelsius : String → ℚ → ℚ
  | "Fahrenheit", x => x * 9 / 5 + 32
  | "Kelvin", x => x + 273.15
  | _, x => x

/-! ### The AI-response parsing pipeline (`parse_with_gemini`, src/app.py lines 76-130)

The external Gemini call is an opaque collaborator; the pipeline from
`raw_response = response.text.strip()` (line 102) onward is a deterministic
function of the response text and is embedded below.  Python string
primitives (`strip`, `split`, `in`) and `json.loads` restricted to the
shapes the pipeline can meet are modelled explicitly. -/

/-- A JSON value as decoded by `json.loads`.  The model covers scalars and
flat objects (an object whose values are scalars); nested containers are
outside the modelled input domain. -/
inductive JValue : Type where
  | jnull : JValue
  | jbool : Bool → JValue
  | jnum : ℚ → JValue
  | jstr : String → JValue
  | jobj : List (String × JValue) → JValue
deriving Repr

/-- The whitespace characters removed by Python `str.strip()` (space, tab,
newline, carriage return, vertical tab, form feed). -/
def isPyWs (c : Char) : Bool :=
  c = ' ' ∨ c = '\t' ∨ c = '\n' ∨ c = '\r' ∨ c = '\x0b' ∨ c = '\x0c'

/-- Python `str.strip()`: remove leading and trailing whitespace. -/
def pystrip (s : String) : String :=
  String.mk (((s.data.dropWhile isPyWs).reverse.dropWhile isPyWs).reverse)

/-- Does `cs` start with `p`? -/
def isPrefixList : List Char → List Char → Bool
  | [], _ => true
  | _ :: _, [] => false
  | p :: ps, c :: cs => p = c && isPrefixList ps cs

/-- Core loop of Python `str.split(sep)` for a non-empty separator: scan
left to right, cutting at each non-overlapping occurrence of `sep`.  The
fuel argument only bounds the recursion; `splitLoop (cs.length + 1) sep []
cs` always has enough fuel because every step consumes at least one
character. -/
def splitLoop : Nat → List Char → List Char → List Char → List (List Char)
  | _, _, acc, [] => [acc.reverse]
  | 0, _, acc, cs => [acc.reverse ++ cs]
  | fuel + 1, sep, acc, cs =>
    if isPrefixList sep cs then
      acc.reverse :: splitLoop fuel sep [] (cs.drop sep.length)
    else
      match cs with
      | [] => [acc.reverse]
      | c :: rest => splitLoop fuel sep (c :: acc) rest

/-- Python `s.split(sep)` for a non-empty separator. -/
def pysplit (s sep : String) : List String :=
  (splitLoop (s.data.length + 1) sep.data [] s.data).map String.mk

/-- Python `sub in s` for a non-empty `sub`: the split has more than one
part exactly when `sub` occurs in `s`. -/
def pycontains (s sub : String) : Bool :=
  decide ((pysplit s sub).length > 1)

/-- Indexing `l[i]` with a default, for split results whose length the
source has already guarded. -/
def getPart (l : List String) (i : Nat) : String :=
  l.getD i ""

/-- The fence-stripping step of `parse_with_gemini` (src/app.py lines
102-107): strip the raw response, then if it contains a ```json fence keep
what stands between the fence and the next ``` marker, else if it contains
``` keep what follows the first marker, stripping again in both cases. -/
def strip_fences (text : String) : String :=
  let raw := pystrip text
  if pycontains raw "```json" then
    pystrip (getPart (pysplit (getPart (pysplit raw "```json") 1) "```") 0)
  else if pycontains raw "```" then
    pystrip (getPart (pysplit raw "```") 1)
  else raw

/-- Skip JSON whitespace (the four characters `json.loads` skips between
tokens). -/
def skipWs : List Char → List Char
  | [] => []
  | c :: cs =>
    if c = ' ' ∨ c = '\t' ∨ c = '\n' ∨ c = '\r' then skipWs cs else c :: cs

/-- JSON string escape sequences (`\uXXXX` escapes are outside the modelled
input domain). -/
def escChar (e : Char) : Option Char :=
  if e = 'n' then some '\n'
  else if e = 't' then some '\t'
  else if e = 'r' then some '\r'
  else if e = '"' then some '"'
  else if e = '\\' then some '\\'
  else if e = '/' then some '/'
  else if e = 'b' then some '\x08'
  else if e = 'f' then some '\x0c'
  else none

/-- Parse the body of a JSON string up to its closing quote, returning the
decoded characters and the rest of the input. -/
def parseStringChars : List Char → Option (List Char × List Char)
  | [] => none
  | '"' :: rest => some ([], rest)
  | '\\' :: rest =>
    match rest with
    | [] => none
    | e :: rest1 =>
      match escChar e with
      | none => none
      | some c => (parseStringChars rest1).map (fun p => (c :: p.1, p.2))
  | c :: rest => (parseStringChars rest).map (fun p => (c :: p.1, p.2))

/-- Take a maximal run of decimal digits. -/
def takeDigits : List Char → List Char × List Char
  | [] => ([], [])
  | c :: cs =>
    if c.isDigit then
      let p := takeDigits cs
      (c :: p.1, p.2)
    else ([], c :: cs)

/-- The natural number denoted by a digit run. -/
def digitsToNat (ds : List Char) : Nat :=
  ds.foldl (fun n c => n * 10 + (c.toNat - '0'.toNat)) 0

/-- Parse a JSON number (optional minus sign, integer part, optional
fractional part; exponent notation is outside the modelled input domain).
The exact rational value is returned. -/
def parseNumber (cs : List Char) : Option (ℚ × List Char) :=
  let sgn := match cs with
    | '-' :: rest => (true, rest)
    | _ => (false, cs)
  match takeDigits sgn.2 with
  | ([], _) => none
  | (ds, rest) =>
    let intPart : ℚ := (digitsToNat ds : ℚ)
    match rest with
    | '.' :: rest2 =>
      match takeDigits rest2 with
      | ([], _) => none
      | (fs, rest3) =>
        let q := intPart + (digitsToNat fs : ℚ) / (10 : ℚ) ^ fs.length
        some (if sgn.1 then -q else q, rest3)
    | _ => some (if sgn.1 then -intPart else intPart, rest)

/-- Parse a scalar JSON value (string, number, `true`, `false`, `null`). -/
def parseScalar : List Char → Option (JValue × List Char)
  | 't' :: 'r' :: 'u' :: 'e' :: rest => some (.jbool true, rest)
  | 'f' :: 'a' :: 'l' :: 's' :: 'e' :: rest => some (.jbool false, rest)
  | 'n' :: 'u' :: 'l' :: 'l' :: rest => some (.jnull, rest)
  | '"' :: rest =>
    (parseStringChars rest).map (fun p => (.jstr (String.mk p.1), p.2))
  | cs => (parseNumber cs).map (fun p => (.jnum p.1, p.2))

/-- Parse the members of a JSON object after its opening brace, ending at
the closing brace.  Fuel bounds the recursion; every member consumes at
least one character, so `length + 1` fuel always suffices. -/
def parseMembers : Nat → List Char → Option (List (String × JValue) × List Char)
  | 0, _ => none
  | fuel + 1, cs =>
    match skipWs cs with
    | '"' :: rest =>
      match parseStringChars rest with
      | none => none
      | some (key, rest1) =>
        match skipWs rest1 with
        | ':' :: rest2 =>
          match parseScalar (skipWs rest2) with
          | none => none
          | some (v, rest3) =>
            match skipWs rest3 with
            | ',' :: rest4 =>
              (parseMembers fuel rest4).map
                (fun p => ((String.mk key, v) :: p.1, p.2))
            | '\x7d' :: rest4 => some ([(String.mk key, v)], rest4)
            | _ => none
        | _ => none
    | _ => none

/-- Model of `json.loads` on the input shapes this pipeline meets: a
scalar or a flat object, with surrounding whitespace allowed, and nothing
after the value.  `none` models `json.JSONDecodeError`. -/
def json_loads (s : String) : Option JValue :=
  let cs := skipWs s.data
  let parsed : Option (JValue × List Char) :=
    match cs with
    | '\x7b' :: rest =>
      match skipWs rest with
      | '\x7d' :: rest2 => some (.jobj [], rest2)
      | _ => (parseMembers (rest.length + 1) rest).map
          (fun p => (.jobj p.1, p.2))
    | _ => parseScalar cs
  parsed.bind (fun p => if (skipWs p.2).isEmpty then some p.1 else none)

/-- Python dict lookup on the assoc list produced by the JSON parser:
later duplicate keys overwrite earlier ones, as in `dict` construction. -/
def dlookup : List (String × JValue) → String → Option JValue
  | [], _ => none
  | kv :: rest, key =>
    match dlookup rest key with
    | some w => some w
    | none => if kv.1 = key then some kv.2 else none

/-- `k in result.keys()`. -/
def hasKey (obj : List (String × JValue)) (k : String) : Bool :=
  (dlookup obj k).isSome

/-- The `required_keys` set of `parse_with_gemini` (src/app.py line 112). -/
def required_keys : List String :=
  ["value", "from_unit", "to_unit", "category"]

/-- The `valid_categories` set of `parse_with_gemini` (src/app.py line 117). -/
def valid_categories : List String :=
  ["Length", "Weight", "Temperature", "Volume"]

/-- The membership test `result["category"] in valid_categories`: a JSON
value passes exactly when it is one of the four category strings (a
non-string value compares unequal to every member).  On success the
category string is returned. -/
def category_of : JValue → Option String
  | .jstr s => if s ∈ valid_categories then some s else none
  | _ => none

/-- Python `float(x)` on a JSON-decoded numeric string: optional
whitespace and sign, then digits with an optional decimal point (`"1"`,
`"1.5"`, `"1."`, `".5"`).  Exponent notation, `inf`/`nan` and underscore
separators are outside the modelled input domain.  `none` models
`ValueError`. -/
def pyFloatOfChars (cs : List Char) : Option ℚ :=
  let sgn := match cs with
    | '-' :: rest => (true, rest)
    | '+' :: rest => (false, rest)
    | _ => (false, cs)
  match takeDigits sgn.2 with
  | (ds, rest) =>
    match rest with
    | '.' :: rest2 =>
      let p := takeDigits rest2
      if (ds.isEmpty && p.1.isEmpty) || !p.2.isEmpty then none
      else
        some ((if sgn.1 then -1 else 1) *
          ((digitsToNat ds : ℚ) + (digitsToNat p.1 : ℚ) / (10 : ℚ) ^ p.1.length))
    | [] =>
      if ds.isEmpty then none
      else some ((if sgn.1 then -1 else 1) * (digitsToNat ds : ℚ))
    | _ => none

/-- Python `float(result["value"])` (src/app.py line 122) on a
JSON-decoded value: a number is returned exactly, a bool becomes 0 or 1, a
numeric string is parsed, and everything else raises (`ValueError` /
`TypeError`), modelled as `none`. -/
def pyFloat : JValue → Option ℚ
  | .jnum q => some q
  | .jbool b => some (if b then 1 else 0)
  | .jstr s => pyFloatOfChars (pystrip s).data
  | _ => none

/-- The caller-distinguishable outcomes of `parse_with_gemini`: one
constructor per `st.error` site plus success.  `errApi` is the outer
`except Exception` handler ("Gemini API error: ...", src/app.py line 129),
which catches both service failures and any exception escaping the inner
processing — in particular the `ValueError`/`TypeError` raised by
`float(result["value"])`. -/
inductive ParseOutcome : Type where
  | ok : ℚ → JValue → JValue → String → ParseOutcome
  | errMissingKeys : ParseOutcome
  | errInvalidCategory : JValue → ParseOutcome
  | errJson : ParseOutcome
  | errApi : ParseOutcome
deriving Repr

/-- The validation steps of `parse_with_gemini` after `json.loads`
succeeds on an object (src/app.py lines 112-122): require the four keys,
require a valid category, coerce `value` with `float`, and on success
return `(float(result["value"]), result["from_unit"], result["to_unit"],
result["category"])` — the two unit fields are passed through unvalidated.
The `getD .jnull` defaults are never taken: the key check guards every
lookup. -/
def validate (obj : List (String × JValue)) : ParseOutcome :=
  if required_keys.all (hasKey obj) then
    match category_of ((dlookup obj "category").getD .jnull) with
    | some c =>
      match pyFloat ((dlookup obj "value").getD .jnull) with
      | some q =>
        .ok q ((dlookup obj "from_unit").getD .jnull)
          ((dlookup obj "to_unit").getD .jnull) c
      | none => .errApi
    | none => .errInvalidCategory ((dlookup obj "category").getD .jnull)
  else .errMissingKeys

/-- The deterministic part of `parse_with_gemini` (src/app.py lines
102-130) as a function of the raw response text: strip code fences, parse
JSON (failure is the `json.JSONDecodeError` handler), then validate.  A
successfully parsed non-object reaches `result.keys()` and raises
`AttributeError`, caught by the outer handler. -/
def parse_response (text : String) : ParseOutcome :=
  match json_loads (strip_fences text) with
  | none => .errJson
  | some (.jobj obj) => validate obj
  | some _ => .errApi

/-- What the caller of `parse_with_gemini` receives: the tuple on success,
`None` on every error outcome (each error site does `st.error(...); return
None`). -/
def parse_result : ParseOutcome → Option (ℚ × JValue × JValue × String)
  | .ok v f t c => some (v, f, t, c)
  | _ => none

/-- Helper: congruence of `Except.ok` over `ℚ`. -/
theorem ok_congr {a b : ℚ} (h : a = b) :
    (Except.ok a : Except String ℚ) = Except.ok b := by rw [h]

/-- C1: for the factor categories, whenever both units are present in the
category's table (with factors `a` and `b`), `convert_units` returns exactly
`value * a / b`; and `convert_units 1 "miles" "kilometers" "Length"` is
within `1e-3` of `1.60934`. -/
theorem convert_units_factor_formula :
    (∀ (value a b : ℚ) (from_unit to_unit category : String)
        (table : List (String × ℚ)),
        factor_table category = some table →
        List.lookup from_unit table = some a →
        List.lookup to_unit table = some b →
        convert_units value from_unit to_unit category = .ok (value * a / b)) ∧
    ∃ r : ℚ, convert_units 1 "miles" "kilometers" "Length" = .ok r ∧
      |r - 1.60934| < 1 / 1000 := by
  constructor
  · intro value a b from_unit to_unit category table hcat hf ht
    have hne : ¬ category = "Temperature" := by
      intro h
      subst h
      simp [factor_table] at hcat
    simp only [convert_units, if_neg hne, hcat, hf, ht]
  · refine ⟨1 * 1609.34 / 1000, ?_, by norm_num⟩
    simp [convert_units, factor_table, length_table, List.lookup]
    norm_num

/-- Witness for C1 at a concrete input: feet to inches. -/
theorem convert_units_factor_formula_witness :
    convert_units 2 "feet" "inches" "Length" = .ok (2 * 0.3048 / 0.0254) :=
  convert_units_factor_formula.1 2 0.3048 0.0254 "feet" "inches" "Length"
    length_table rfl rfl rfl

/-- C2: for temperature, `convert_units` first maps the input to Celsius by
the inverse formula of `from_unit` and then maps Celsius to `to_unit` by its
forward formula; and the three concrete facts `0 °C = 32 °F`,
`100 °C = 212 °F`, `0 °C = 273.15 K` hold exactly. -/
theorem convert_units_temperature_spec :
    (∀ (v : ℚ) (f t : String),
        f ∈ unit_options "Temperature" → t ∈ unit_options "Temperature" →
        convert_units v f t "Temperature" =
          .ok (spec_fromCelsius t (spec_toCelsius f v))) ∧
    convert_units 0 "Celsius" "Fahrenheit" "Temperature" = .ok 32 ∧
    convert_units 100 "Celsius" "Fahrenheit" "Temperature" = .ok 212 ∧
    convert_units 0 "Celsius" "Kelvin" "Temperature" = .ok 273.15 := by
  refine ⟨?_, by simp [convert_units], by simp [convert_units]; norm_num,
    by simp [convert_units]⟩
  intro v f t hf ht
  simp only [unit_options] at hf ht
  fin_cases hf <;> fin_cases ht <;> rfl

/-- Witness for C2 at a concrete input: Kelvin to Fahrenheit at 300 K. -/
theorem convert_units_temperature_spec_witness :
    convert_units 300 "Kelvin" "Fahrenheit" "Temperature" =
      .ok (spec_fromCelsius "Fahrenheit" (spec_toCelsius "Kelvin" 300)) :=
  convert_units_temperature_spec.1 300 "Kelvin" "Fahrenheit"
    (by decide) (by decide)

/-- C3 counterexample: the claim asserts that an invalid unit causes a
lookup failure "for all four categories including Temperature", never a
silently substituted result.  But `convert_units` performs no unit
validation on the temperature branch: `"unknown_unit"` falls through to the
Celsius-identity `else` arms, so `convert_units 5 "unknown_unit" "Celsius"
"Temperature"` silently returns `5` instead of failing. -/
theorem convert_units_temperature_no_lookup_failure :
    convert_units 5 "unknown_unit" "Celsius" "Temperature" = .ok 5 ∧
    ∀ r, convert_units 5 "unknown_unit" "Celsius" "Temperature" ≠ .error r := by
  constructor
  · rfl
  · intro r h
    exact absurd h (by simp [convert_units])

/-- C3 (amended): an unknown category fails with a lookup error naming the
category; for the three factor categories a `from_unit` or `to_unit` absent
from the category's table fails with a lookup error naming that unit (in
particular `convert_units 5 "unknown_unit" "meters" "Length"` fails naming
`"unknown_unit"`); but the temperature branch never fails, silently
treating any unrecognised unit as Celsius. -/
theorem convert_units_lookup_failures :
    (∀ (v : ℚ) (f t c : String), factor_table c = none → c ≠ "Temperature" →
        convert_units v f t c = .error c) ∧
    (∀ (v : ℚ) (f t c : String) (table : List (String × ℚ)),
        factor_table c = some table → List.lookup f table = none →
        convert_units v f t c = .error f) ∧
    (∀ (v a : ℚ) (f t c : String) (table : List (String × ℚ)),
        factor_table c = some table → List.lookup f table = some a →
        List.lookup t table = none →
        convert_units v f t c = .error t) ∧
    convert_units 5 "unknown_unit" "meters" "Length" = .error "unknown_unit" ∧
    (∀ (v : ℚ) (f t : String), ∃ r, convert_units v f t "Temperature" = .ok r) := by
  refine ⟨?_, ?_, ?_, by rfl, ?_⟩
  · intro v f t c hc hne
    simp only [convert_units, if_neg hne, hc]
  · intro v f t c table hc hf
    have hne : ¬ c = "Temperature" := by
      intro h
      subst h
      simp [factor_table] at hc
    simp only [convert_units, if_neg hne, hc, hf]
  · intro v a f t c table hc hf ht
    have hne : ¬ c = "Temperature" := by
      intro h
      subst h
      simp [factor_table] at hc
    simp only [convert_units, if_neg hne, hc, hf, ht]
  · intro v f t
    simp only [convert_units, if_pos rfl]
    by_cases h1 : t = "Fahrenheit"
    · rw [if_pos h1]
      exact ⟨_, rfl⟩
    · rw [if_neg h1]
      by_cases h2 : t = "Kelvin"
      · rw [if_pos h2]
        exact ⟨_, rfl⟩
      · rw [if_neg h2]
        exact ⟨_, rfl⟩

/-- Witness for C3 (amended) at a concrete input: an unknown category. -/
theorem convert_units_lookup_failures_witness :
    convert_units 1 "meters" "feet" "Speed" = .error "Speed" :=
  convert_units_lookup_failures.1 1 "meters" "feet" "Speed" rfl (by decide)

/-- C4: round-trip law.  For every supported category, every pair of valid
units of that category, and every value, converting and then converting
back returns the original value exactly (hence within any floating-point
tolerance). -/
theorem convert_units_roundtrip (c f t : String) (v : ℚ)
    (hc : c ∈ categories) (hf : f ∈ unit_options c) (ht : t ∈ unit_options c) :
    ∃ w, convert_units v f t c = .ok w ∧ convert_units w t f c = .ok v := by
  fin_cases hc <;> simp only [unit_options] at hf ht <;>
    fin_cases hf <;> fin_cases ht <;>
    refine ⟨_, rfl, ok_congr ?_⟩ <;>
    (try simp only [String.reduceEq, reduceIte]) <;> ring

/-- Witness for C4 at a concrete input: feet to meters and back at 3. -/
theorem convert_units_roundtrip_witness :
    ∃ w, convert_units 3 "feet" "meters" "Length" = .ok w ∧
      convert_units w "meters" "feet" "Length" = .ok 3 :=
  convert_units_roundtrip "Length" "feet" "meters" 3
    (by decide) (by decide) (by decide)

/-- C5: identity conversion.  For every supported category, every valid
unit of that category, and every value, converting a value from a unit to
itself returns the value exactly. -/
theorem convert_units_identity (c u : String) (v : ℚ)
    (hc : c ∈ categories) (hu : u ∈ unit_options c) :
    convert_units v u u c = .ok v := by
  fin_cases hc <;> simp only [unit_options] at hu <;>
    fin_cases hu <;> refine ok_congr ?_ <;>
    (try simp only [String.reduceEq, reduceIte]) <;> ring

/-- Witness for C5 at a concrete input: kilograms to kilograms at 7. -/
theorem convert_units_identity_witness :
    convert_units 7 "kilograms" "kilograms" "Weight" = .ok 7 :=
  convert_units_identity "Weight" "kilograms" 7 (by decide) (by decide)

/-- C6 counterexample: the claim asserts a numeric-coercion failure is
reported as a distinct error kind, distinguishable from the
service-failure kind.  But in `parse_with_gemini` the `ValueError` raised
by `float(result["value"])` is caught by the outer `except Exception`
handler — the very handler that reports service failures as "Gemini API
error: ..." — so a response whose `value` is the non-numeric string
`"abc"` produces the service-failure outcome `errApi`, not a distinct
numeric-conversion outcome. -/
theorem numeric_coercion_not_distinct :
    parse_response "\x7b\"value\": \"abc\", \"from_unit\": \"feet\", \"to_unit\": \"meters\", \"category\": \"Length\"\x7d" =
      .errApi := by rfl

/-- C6 (amended): for every response that parses to an object with all
four required keys and a valid category but whose `value` field cannot be
coerced by `float`, the pipeline reports the generic Gemini-API-error
outcome — the same kind used for service failures, hence distinguishable
from the JSON-malformed and schema-violation kinds but not from a service
failure — and the caller receives `None`. -/
theorem numeric_coercion_reported_as_api_error (s : String)
    (obj : List (String × JValue)) (c : String)
    (hparse : json_loads (strip_fences s) = some (.jobj obj))
    (hkeys : required_keys.all (hasKey obj) = true)
    (hcat : category_of ((dlookup obj "category").getD .jnull) = some c)
    (hval : pyFloat ((dlookup obj "value").getD .jnull) = none) :
    parse_response s = .errApi ∧
    parse_result (parse_response s) = none ∧
    ParseOutcome.errApi ≠ ParseOutcome.errJson ∧
    ParseOutcome.errApi ≠ ParseOutcome.errMissingKeys := by
  have h1 : parse_response s = .errApi := by
    unfold parse_response
    rw [hparse]
    show validate obj = ParseOutcome.errApi
    unfold validate
    rw [hkeys, if_pos rfl, hcat, hval]
  exact ⟨h1, by rw [h1]; rfl, fun h => ParseOutcome.noConfusion h,
    fun h => ParseOutcome.noConfusion h⟩

/-- Witness for C6 (amended) at a concrete input: a `null` value field. -/
theorem numeric_coercion_reported_as_api_error_witness :
    parse_response "\x7b\"value\": null, \"from_unit\": \"feet\", \"to_unit\": \"meters\", \"category\": \"Length\"\x7d" =
        .errApi ∧
    parse_result (parse_response "\x7b\"value\": null, \"from_unit\": \"feet\", \"to_unit\": \"meters\", \"category\": \"Length\"\x7d") =
        none ∧
    ParseOutcome.errApi ≠ ParseOutcome.errJson ∧
    ParseOutcome.errApi ≠ ParseOutcome.errMissingKeys :=
  numeric_coercion_reported_as_api_error _
    [("value", .jnull), ("from_unit", .jstr "feet"),
     ("to_unit", .jstr "meters"), ("category", .jstr "Length")]
    "Length" rfl rfl rfl rfl

/-- C7: on the code-fenced raw response of the claim, the
fence-stripping, JSON-parsing, and validation pipeline succeeds and yields
the tuple `(5.0, "feet", "meters", "Length")`. -/
theorem fenced_response_parses :
    parse_response "```json\n\x7b\"value\": 5, \"from_unit\": \"feet\", \"to_unit\": \"meters\", \"category\": \"Length\"\x7d\n```" =
      .ok 5 (.jstr "feet") (.jstr "meters") "Length" := by rfl

/-- C8: every response that parses as a JSON object missing one of the
four required keys yields the missing-keys schema-violation outcome —
distinct from the JSON-malformed outcome — and the caller receives `None`
rather than a crash. -/
theorem missing_keys_schema_violation (s : String)
    (obj : List (String × JValue))
    (hparse : json_loads (strip_fences s) = some (.jobj obj))
    (hmiss : required_keys.all (hasKey obj) = false) :
    parse_response s = .errMissingKeys ∧
    parse_result (parse_response s) = none ∧
    ParseOutcome.errMissingKeys ≠ ParseOutcome.errJson := by
  have h1 : parse_response s = .errMissingKeys := by
    unfold parse_response
    rw [hparse]
    show validate obj = ParseOutcome.errMissingKeys
    unfold validate
    rw [hmiss]
    rfl
  exact ⟨h1, by rw [h1]; rfl, fun h => ParseOutcome.noConfusion h⟩

/-- Witness for C8 at a concrete input: a response missing the `category`
key. -/
theorem missing_keys_schema_violation_witness :
    parse_response "\x7b\"value\": 5, \"from_unit\": \"feet\", \"to_unit\": \"meters\"\x7d" =
        .errMissingKeys ∧
    parse_result (parse_response "\x7b\"value\": 5, \"from_unit\": \"feet\", \"to_unit\": \"meters\"\x7d") =
        none ∧
    ParseOutcome.errMissingKeys ≠ ParseOutcome.errJson :=
  missing_keys_schema_violation _
    [("value", .jnum 5), ("from_unit", .jstr "feet"), ("to_unit", .jstr "meters")]
    rfl rfl

/-- C9: every response that parses as a JSON object with all four
required keys but whose `category` field is not one of the four valid
categories yields the invalid-category schema-violation outcome carrying
the offending value (the `st.error` message interpolates it next to the
valid set), and the caller receives `None`. -/
theorem invalid_category_schema_violation (s : String)
    (obj : List (String × JValue)) (cv : JValue)
    (hparse : json_loads (strip_fences s) = some (.jobj obj))
    (hkeys : required_keys.all (hasKey obj) = true)
    (hcv : dlookup obj "category" = some cv)
    (hinv : category_of cv = none) :
    parse_response s = .errInvalidCategory cv ∧
    parse_result (parse_response s) = none := by
  have h1 : parse_response s = .errInvalidCategory cv := by
    unfold parse_response
    rw [hparse]
    show validate obj = ParseOutcome.errInvalidCategory cv
    unfold validate
    rw [hkeys, if_pos rfl, hcv, Option.getD_some, hinv]
  exact ⟨h1, by rw [h1]; rfl⟩

/-- Witness for C9 at a concrete input: `"category": "Speed"` yields the
schema violation naming `"Speed"`. -/
theorem invalid_category_schema_violation_witness :
    parse_response "\x7b\"value\": 5, \"from_unit\": \"feet\", \"to_unit\": \"meters\", \"category\": \"Speed\"\x7d" =
        .errInvalidCategory (.jstr "Speed") ∧
    parse_result (parse_response "\x7b\"value\": 5, \"from_unit\": \"feet\", \"to_unit\": \"meters\", \"category\": \"Speed\"\x7d") =
        none :=
  invalid_category_schema_violation _
    [("value", .jnum 5), ("from_unit", .jstr "feet"),
     ("to_unit", .jstr "meters"), ("category", .jstr "Speed")]
    (.jstr "Speed") rfl rfl rfl rfl

/-- Helper: a value passing the category membership test is one of the
four valid category strings. -/
theorem category_of_mem {v : JValue} {c : String}
    (h : category_of v = some c) : c ∈ valid_categories := by
  cases v with
  | jstr s =>
    have h2 : (if s ∈ valid_categories then some s else none) = some c := h
    by_cases hmem : s ∈ valid_categories
    · rw [if_pos hmem] at h2
      exact (Option.some.inj h2) ▸ hmem
    · rw [if_neg hmem] at h2
      exact absurd h2 (by simp)
  | jnull => exact absurd h (by simp [category_of])
  | jbool b => exact absurd h (by simp [category_of])
  | jnum q => exact absurd h (by simp [category_of])
  | jobj o => exact absurd h (by simp [category_of])

/-- Helper: the validation stage either succeeds with a category from the
valid set or produces an error outcome the caller sees as `None`. -/
theorem validate_shape (obj : List (String × JValue)) :
    (∃ v f t c, validate obj = .ok v f t c ∧ c ∈ valid_categories) ∨
    parse_result (validate obj) = none := by
  unfold validate
  split
  · cases hcat : category_of ((dlookup obj "category").getD JValue.jnull) with
    | none => right; rfl
    | some c =>
      cases hval : pyFloat ((dlookup obj "value").getD JValue.jnull) with
      | none => right; rfl
      | some q =>
        left
        exact ⟨q, (dlookup obj "from_unit").getD JValue.jnull,
          (dlookup obj "to_unit").getD JValue.jnull, c, rfl,
          category_of_mem hcat⟩
  · right; rfl

/-- C10: for every response text, the modelled `parse_with_gemini`
pipeline is a total function (every exception raised inside it is caught
at one of its handlers): the caller receives either `None` or a tuple
whose first component is a number and whose fourth component is one of the
four valid categories. -/
theorem parse_with_gemini_shape (s : String) :
    (∃ v f t c, parse_response s = .ok v f t c ∧ c ∈ valid_categories) ∨
    parse_result (parse_response s) = none := by
  unfold parse_response
  rcases hj : json_loads (strip_fences s) with _ | jv
  · right; rfl
  · cases jv with
    | jobj obj => exact validate_shape obj
    | jnull => right; rfl
    | jbool b => right; rfl
    | jnum q => right; rfl
    | jstr t => right; rfl

end UnitConverter
